import Mathlib

/-!
# Care-booking availability / booking-conflict engine: a verification development

Shallow embedding of the booking core of the repository (`src/mocks/handlers.ts`):
the slot generator `generateAvailableSlots`, the booking handlers
(`POST /api/bookings`, `PUT /api/bookings/:id`, `DELETE /api/bookings/:id`),
the availability endpoint (`GET /api/availability`) and the review handlers
(`POST /api/reviews`, `PUT /api/reviews/:id`, `DELETE /api/reviews/:id`),
together with the seed mock data they operate on.

Modelling conventions:
* JS strings are Lean `String`s; the JS relational operators `<`/`<=` on strings
  (UTF-16 code-unit lexicographic order) are embedded as executable comparisons
  on `String.data` (`lexLt`, `strLt`, `strLe`); all strings involved are ASCII,
  where code-unit order and code-point order agree.
* JS numbers holding minute counts, hours, indices are `Nat`; prices and ratings
  (which undergo division when averaging) are `ℚ`.  Floating-point rounding of
  JS number division is not modelled.
* `String.prototype.split(':')` + `Number(...)` on well-formed `"HH:mm"` strings
  is embedded by `splitOn`/`digitsVal`; the `NaN` outcomes on malformed input are
  collapsed to `0` (every theorem below restricts to well-formed time strings).
* The `while` loop of the slot generator is embedded as a fuel-indexed structural
  recursion (`slotLoopF`); `slotLoopF_congr` proves the result is independent of
  the fuel once it exceeds the loop's iteration bound, so `slotLoop` (which
  supplies such a fuel) is a faithful rendering of the loop for all inputs.
* `parseISO(date).getDay()` (weekday of a calendar date in the runtime's local
  timezone, from the date-fns library) is kept as an explicit function parameter
  `dow : String → Nat` of the operations: the calendar/timezone computation is
  external library code, and nothing in the repository's logic depends on which
  weekday a particular date maps to.
* `new Date().toISOString()` timestamps are passed in as a `now : String`
  parameter.  `Date` arithmetic used to compute a booking's end time
  (`setHours`/`getTime`/`getHours`/`getMinutes`) is minute arithmetic modulo one
  day; daylight-saving anomalies of the host timezone are not modelled.
-/

namespace CareBooking

/-! ## JS string comparison (code-unit lexicographic order) -/

/-- JS `<` on strings: code-unit-wise lexicographic comparison of two character
lists (a proper prefix is smaller). -/
def lexLt : List Char → List Char → Bool
  | _, [] => false
  | [], _ :: _ => true
  | a :: as, b :: bs => if a < b then true else if b < a then false else lexLt as bs

/-- JS `a < b` on strings. -/
def strLt (a b : String) : Bool := lexLt a.data b.data

/-- JS `a <= b` on strings (total order, so `a <= b` iff `¬ (b < a)`). -/
def strLe (a b : String) : Bool := !(lexLt b.data a.data)

/-! ## `"HH:mm"` parsing and formatting -/

/-- JS `String.prototype.split(sep)` on a character list. -/
def splitOn (sep : Char) : List Char → List (List Char)
  | [] => [[]]
  | c :: cs =>
    if c = sep then [] :: splitOn sep cs
    else
      match splitOn sep cs with
      | [] => [[c]]
      | g :: gs => (c :: g) :: gs

/-- Decimal value of a digit string (`Number(...)` restricted to digit strings;
the `NaN` results on non-digit input are not modelled and collapse to garbage
values, which every theorem below excludes by well-formedness hypotheses). -/
def digitsVal : List Char → Nat → Nat
  | [], acc => acc
  | c :: cs, acc => digitsVal cs (acc * 10 + (c.toNat - 48))

/-- `s.split(':').map(Number)` destructured as `[hour, minute]`
(`generateAvailableSlots` and the `POST /api/bookings` handler). -/
def parseHM (s : String) : Nat × Nat :=
  match splitOn ':' s.data with
  | [h, m] => (digitsVal h 0, digitsVal m 0)
  | _ => (0, 0)

/-- JS `n.toString().padStart(2, '0')`: the decimal digits of `n`, left-padded
with `'0'` to length two (a no-op for `n ≥ 100`, whose representation already
has at least three characters). -/
def pad2 (n : Nat) : List Char :=
  if n < 10 then ['0', Nat.digitChar n]
  else if n < 100 then [Nat.digitChar (n / 10), Nat.digitChar (n % 10)]
  else Nat.toDigits 10 n

/-- The `` `${h.toString().padStart(2,'0')}:${m.toString().padStart(2,'0')}` ``
template used everywhere a time string is produced. -/
def fmtTime (h m : Nat) : String := String.mk (pad2 h ++ ':' :: pad2 m)

/-- An `"HH:mm"` string from a minute-of-day count. -/
def minStr (t : Nat) : String := fmtTime (t / 60) (t % 60)

/-! ## The slot-discretization loop of `generateAvailableSlots`

The source walks `(currentHour, currentMinute)` forward in 30-minute steps while
`current < end`, pushing the slot `[current, current+30)` whenever the advanced
time still satisfies `current+30 ≤ end`.  `slotLoopF` is that loop with an
explicit fuel; `slotMu` is a strict upper bound on the number of remaining
iterations, and `slotFuel` exceeds it, so `slotLoop` computes the loop's result
for every input (`slotLoopF_congr`). -/

/-- One execution of the `while` loop of `generateAvailableSlots`, fuelled.
Entries are `((startHour, startMinute), (endHour, endMinute))` pairs. -/
def slotLoopF : Nat → Nat → Nat → Nat → Nat → List ((Nat × Nat) × (Nat × Nat))
  | 0, _, _, _, _ => []
  | fuel+1, h, m, eh, em =>
    if h < eh ∨ (h = eh ∧ m < em) then
      let m1 := m + 30
      let h2 := if m1 ≥ 60 then h + 1 else h
      let m2 := if m1 ≥ 60 then m1 - 60 else m1
      let rest := slotLoopF fuel h2 m2 eh em
      if h2 < eh ∨ (h2 = eh ∧ m2 ≤ em) then ((h, m), (h2, m2)) :: rest else rest
    else []

/-- Strict bound on the remaining iterations of the loop from state `(h, m)`:
every iteration either increments the hour or (at most once per hour value)
raises the minute past 30. -/
def slotMu (h m eh : Nat) : Nat := 2 * (eh + 1 - h) + (if m < 30 then 1 else 0)

/-- Fuel sufficient for the whole loop. -/
def slotFuel (h eh : Nat) : Nat := 2 * (eh + 1 - h) + 2

/-- The slot-discretization loop from start `(h, m)` to end `(eh, em)`. -/
def slotLoop (h m eh em : Nat) : List ((Nat × Nat) × (Nat × Nat)) :=
  slotLoopF (slotFuel h eh) h m eh em

/-- The loop result does not depend on the fuel, once the fuel exceeds the
iteration bound `slotMu`: the fuelled embedding computes the JS loop exactly. -/
theorem slotLoopF_congr : ∀ (f1 f2 h m eh em : Nat),
    slotMu h m eh < f1 → slotMu h m eh < f2 →
    slotLoopF f1 h m eh em = slotLoopF f2 h m eh em := by
  intro f1
  induction f1 using Nat.strong_induction_on with
  | _ f1 ih =>
    intro f2 h m eh em h1 h2
    match f1, f2 with
    | g1+1, g2+1 =>
      simp only [slotLoopF]
      split
      · next hc =>
        have hmu : slotMu (if m + 30 ≥ 60 then h + 1 else h)
            (if m + 30 ≥ 60 then m + 30 - 60 else m + 30) eh < slotMu h m eh := by
          unfold slotMu
          split <;> split <;> split <;> omega
        rw [ih g1 (by omega) g2 _ _ _ _ (by unfold slotMu at *; omega)
            (by unfold slotMu at *; omega)]
      · rfl

/-- The slot emitted for minute-of-day `t`, as hour/minute pairs. -/
def pairAt (t : Nat) : (Nat × Nat) × (Nat × Nat) :=
  ((t / 60, t % 60), ((t + 30) / 60, (t + 30) % 60))

theorem slotLoopF_spec : ∀ (fuel h m eh em : Nat), m < 60 → em < 60 →
    slotMu h m eh < fuel →
    slotLoopF fuel h m eh em =
      (List.range ((eh * 60 + em - (h * 60 + m)) / 30)).map
        (fun k => pairAt (h * 60 + m + 30 * k)) := by
  intro fuel
  induction fuel with
  | zero => intro h m eh em _ _ hf; exact absurd hf (by omega)
  | succ f ih =>
    intro h m eh em hm hem hf
    simp only [slotLoopF]
    split
    · next hc =>
      by_cases h6 : m + 30 ≥ 60
      -- case `m + 30 ≥ 60`: the step rolls the hour over
      · simp only [if_pos h6]
        rw [ih _ _ _ _ (by omega) hem (by unfold slotMu at *; split_ifs at * <;> omega)]
        rcases Nat.lt_or_ge (eh * 60 + em) (h * 60 + m + 30) with hE | hE
        · rw [if_neg (by omega),
            show eh * 60 + em - ((h + 1) * 60 + (m + 30 - 60)) = 0 by omega,
            show (eh * 60 + em - (h * 60 + m)) / 30 = 0 by omega]
          simp
        · rw [if_pos (by omega),
            show eh * 60 + em - (h * 60 + m)
              = (eh * 60 + em - ((h + 1) * 60 + (m + 30 - 60))) + 30 by omega,
            Nat.add_div_right _ (by norm_num), List.range_succ_eq_map]
          simp only [List.map_cons, List.map_map]
          congr 1
          · simp only [pairAt, Prod.mk.injEq]
            omega
          · apply List.map_congr_left
            intro k _
            simp only [Function.comp_apply, pairAt, Prod.mk.injEq]
            omega
      -- case `m + 30 < 60`: the hour is unchanged
      · simp only [if_neg h6]
        rw [ih _ _ _ _ (by omega) hem (by unfold slotMu at *; split_ifs at * <;> omega)]
        rcases Nat.lt_or_ge (eh * 60 + em) (h * 60 + m + 30) with hE | hE
        · rw [if_neg (by omega),
            show eh * 60 + em - (h * 60 + (m + 30)) = 0 by omega,
            show (eh * 60 + em - (h * 60 + m)) / 30 = 0 by omega]
          simp
        · rw [if_pos (by omega),
            show eh * 60 + em - (h * 60 + m)
              = (eh * 60 + em - (h * 60 + (m + 30))) + 30 by omega,
            Nat.add_div_right _ (by norm_num), List.range_succ_eq_map]
          simp only [List.map_cons, List.map_map]
          congr 1
          · simp only [pairAt, Prod.mk.injEq]
            omega
          · apply List.map_congr_left
            intro k _
            simp only [Function.comp_apply, pairAt, Prod.mk.injEq]
            omega
    · next hc =>
      rw [show (eh * 60 + em - (h * 60 + m)) / 30 = 0 by omega]
      simp

/-- Closed form of the slot loop: for a well-formed start/end, it emits exactly
the 30-minute slots `[t, t+30)` at step points `t = start + 30·k` whose end
`t + 30` does not pass the period end, in chronological order. -/
theorem slotLoop_spec (h m eh em : Nat) (hm : m < 60) (hem : em < 60) :
    slotLoop h m eh em =
      (List.range ((eh * 60 + em - (h * 60 + m)) / 30)).map
        (fun k => pairAt (h * 60 + m + 30 * k)) :=
  slotLoopF_spec _ _ _ _ _ hm hem (by unfold slotFuel slotMu; split <;> omega)

/-! ## Lexicographic string order versus numeric time order

The availability filter compares `"HH:mm"` strings with JS `<`/`<=`.  The
following lemmas show this agrees with comparison of the encoded minute-of-day
values, because `fmtTime` zero-pads both components to two digits. -/

theorem digitChar_lt_iff : ∀ x, x < 10 → ∀ y, y < 10 →
    (Nat.digitChar x < Nat.digitChar y ↔ x < y) := by decide

theorem pad2_eq {n : Nat} (hn : n < 100) :
    pad2 n = [Nat.digitChar (n / 10), Nat.digitChar (n % 10)] := by
  unfold pad2
  rcases Nat.lt_or_ge n 10 with h | h
  · rw [if_pos h, show n / 10 = 0 by omega, show n % 10 = n by omega]
    rfl
  · rw [if_neg (by omega), if_pos hn]

theorem lexLt_pad2_append {a b : Nat} (ha : a < 100) (hb : b < 100)
    (r s : List Char) :
    lexLt (pad2 a ++ r) (pad2 b ++ s) =
      (if a < b then true else if b < a then false else lexLt r s) := by
  rw [pad2_eq ha, pad2_eq hb]
  simp only [List.cons_append, List.nil_append, lexLt]
  have d1 := digitChar_lt_iff (a / 10) (by omega) (b / 10) (by omega)
  have d2 := digitChar_lt_iff (b / 10) (by omega) (a / 10) (by omega)
  have d3 := digitChar_lt_iff (a % 10) (by omega) (b % 10) (by omega)
  have d4 := digitChar_lt_iff (b % 10) (by omega) (a % 10) (by omega)
  simp only [d1, d2, d3, d4]
  split_ifs <;> first | rfl | omega

theorem lexLt_fmtTime {h1 m1 h2 m2 : Nat}
    (hh1 : h1 < 100) (hm1 : m1 < 100) (hh2 : h2 < 100) (hm2 : m2 < 100) :
    lexLt (fmtTime h1 m1).data (fmtTime h2 m2).data =
      (if h1 < h2 then true else if h2 < h1 then false else
        if m1 < m2 then true else false) := by
  show lexLt (pad2 h1 ++ ':' :: pad2 m1) (pad2 h2 ++ ':' :: pad2 m2) = _
  rw [lexLt_pad2_append hh1 hh2]
  have hcolon : lexLt (':' :: pad2 m1) (':' :: pad2 m2) = lexLt (pad2 m1) (pad2 m2) := by
    simp [lexLt]
  rw [hcolon, show pad2 m1 = pad2 m1 ++ [] by simp, show pad2 m2 = pad2 m2 ++ [] by simp,
    lexLt_pad2_append hm1 hm2]
  have : lexLt [] [] = false := rfl
  split_ifs <;> simp_all

/-- JS `<` on two formatted times is numeric comparison of their minute values. -/
theorem strLt_fmtTime {h1 m1 h2 m2 : Nat}
    (hh1 : h1 < 100) (hm1 : m1 < 60) (hh2 : h2 < 100) (hm2 : m2 < 60) :
    strLt (fmtTime h1 m1) (fmtTime h2 m2) = true ↔ 60 * h1 + m1 < 60 * h2 + m2 := by
  unfold strLt
  rw [lexLt_fmtTime hh1 (by omega) hh2 (by omega)]
  split_ifs <;> simp <;> omega

/-- JS `<=` on two formatted times is numeric comparison of their minute values. -/
theorem strLe_fmtTime {h1 m1 h2 m2 : Nat}
    (hh1 : h1 < 100) (hm1 : m1 < 60) (hh2 : h2 < 100) (hm2 : m2 < 60) :
    strLe (fmtTime h1 m1) (fmtTime h2 m2) = true ↔ 60 * h1 + m1 ≤ 60 * h2 + m2 := by
  unfold strLe
  rw [lexLt_fmtTime hh2 (by omega) hh1 (by omega)]
  split_ifs <;> simp <;> omega

theorem strLt_minStr {a b : Nat} (ha : a < 6000) (hb : b < 6000) :
    strLt (minStr a) (minStr b) = true ↔ a < b := by
  unfold minStr
  rw [strLt_fmtTime (by omega) (by omega) (by omega) (by omega)]
  omega

theorem strLe_minStr {a b : Nat} (ha : a < 6000) (hb : b < 6000) :
    strLe (minStr a) (minStr b) = true ↔ a ≤ b := by
  unfold minStr
  rw [strLe_fmtTime (by omega) (by omega) (by omega) (by omega)]
  omega

/-- `fmtTime` of in-range components is `minStr` of the minute value. -/
theorem fmtTime_eq_minStr {h m : Nat} (hm : m < 60) :
    fmtTime h m = minStr (60 * h + m) := by
  unfold minStr
  congr 1 <;> omega

/-! ## Data model (`src/mocks/handlers.ts` type declarations and mock stores)

Only the fields read or written by the embedded handlers are retained
(`businessName`, `description`, addresses, galleries, avatars and the other
display-only fields play no role in any claim). -/

inductive BStatus where
  | pending | confirmed | cancelled | completed
deriving DecidableEq, Repr

/-- A `{start, end}` time pair (a working-hours period or a generated slot).
The source field `end` is a Lean keyword and is rendered `stop`. -/
structure Period where
  start : String
  stop : String
deriving DecidableEq, Repr

/-- One weekday's entry of a provider's `workingHours` table. -/
structure WorkEntry where
  isOpen : Bool
  slots : List Period
deriving DecidableEq, Repr

structure Provider where
  id : String
  /-- the `workingHours` object, keyed by the weekday string `'0'..'6'`. -/
  workingHours : List (String × WorkEntry)
  rating : ℚ
  reviewCount : Nat
deriving DecidableEq, Repr

structure Service where
  id : String
  providerId : String
  price : ℚ
  currency : String
  duration : Nat
  available : Bool
deriving DecidableEq, Repr

structure Booking where
  id : String
  customerId : String
  providerId : String
  serviceId : String
  date : String
  startTime : String
  endTime : String
  status : BStatus
  totalPrice : ℚ
  currency : String
  notes : Option String
  createdAt : String
  updatedAt : String
deriving DecidableEq, Repr

structure Review where
  id : String
  bookingId : String
  customerId : String
  providerId : String
  serviceId : String
  rating : ℚ
  comment : String
  createdAt : String
  updatedAt : String
deriving DecidableEq, Repr

/-- The four mutable in-memory stores the handlers operate on
(`mockProviders`, `mockServices`, `mockBookings`, `mockReviews`). -/
structure MState where
  providers : List Provider
  services : List Service
  bookings : List Booking
  reviews : List Review
deriving DecidableEq, Repr

/-- HTTP error responses issued by the handlers. -/
inductive ApiErr where
  | badRequest (msg : String)
  | notFound (msg : String)
deriving DecidableEq, Repr

/-! ## `generateAvailableSlots` -/

/-- The three-disjunct booked-slot test of the availability filter
(`handlers.ts:769-771`), on raw time strings exactly as the source compares
them. -/
def bookingBlocks (bStart bEnd sStart sEnd : String) : Bool :=
  (strLe bStart sStart && strLt sStart bEnd) ||
  (strLt bStart sEnd && strLe sEnd bEnd) ||
  (strLe sStart bStart && strLe bEnd sEnd)

/-- The `bookedSlots` selection: bookings of this provider and date whose
status is `'confirmed'` or `'pending'`. -/
def occupying (bookings : List Booking) (providerId date : String) : List Booking :=
  bookings.filter (fun b =>
    b.providerId == providerId && b.date == date &&
      (b.status == BStatus.confirmed || b.status == BStatus.pending))

/-- Slot discretization of one working period: parse its `"HH:mm"` endpoints,
run the 30-minute loop, format each emitted slot. -/
def periodSlots (p : Period) : List Period :=
  (slotLoop (parseHM p.start).1 (parseHM p.start).2
      (parseHM p.stop).1 (parseHM p.stop).2).map
    (fun q => ⟨fmtTime q.1.1 q.1.2, fmtTime q.2.1 q.2.2⟩)

/-- `generateAvailableSlots(providerId, date)` (`handlers.ts:718-774`).
`dow` stands for `parseISO(date).getDay()`. -/
def generateAvailableSlots (dow : String → Nat) (st : MState)
    (providerId date : String) : List Period :=
  match st.providers.find? (fun p => p.id == providerId) with
  | none => []
  | some provider =>
    let dayOfWeek := Nat.repr (dow date)
    match List.lookup dayOfWeek provider.workingHours with
    | none => []
    | some wh =>
      if wh.isOpen then
        let slots := wh.slots.flatMap periodSlots
        let bookedSlots := occupying st.bookings providerId date
        slots.filter (fun slot =>
          !(bookedSlots.any (fun b =>
            bookingBlocks b.startTime b.endTime slot.start slot.stop)))
      else []

/-! ## Booking handlers -/

/-- `findIndex` on a list. -/
def findIdxO {α : Type} (p : α → Bool) : List α → Option Nat
  | [] => none
  | a :: as => if p a then some 0 else (findIdxO p as).map (· + 1)

/-- Minute-of-day value of an `"HH:mm"` string. -/
def timeVal (s : String) : Nat := 60 * (parseHM s).1 + (parseHM s).2

/-- The body of `POST /api/bookings` (`handlers.ts:1106-1168`).  A request
field the client omitted is modelled as the empty string (both are falsy in
the source's presence check). -/
structure BookingRequest where
  customerId : String
  providerId : String
  serviceId : String
  date : String
  startTime : String
  notes : Option String
deriving DecidableEq, Repr

def createBooking (dow : String → Nat) (now : String) (st : MState)
    (r : BookingRequest) : Except ApiErr (MState × Booking) :=
  if r.customerId == "" || r.providerId == "" || r.serviceId == "" ||
      r.date == "" || r.startTime == "" then
    .error (.badRequest "Missing required booking information")
  else
    match st.services.find? (fun s => s.id == r.serviceId) with
    | none => .error (.notFound "Service not found")
    | some service =>
      -- `new Date()` + `setHours` + `getTime + duration*60000` +
      -- `getHours`/`getMinutes`: minute arithmetic modulo one day
      let total := timeVal r.startTime + service.duration
      let endTime := fmtTime (total / 60 % 24) (total % 60)
      let availableSlots := generateAvailableSlots dow st r.providerId r.date
      if !(availableSlots.any (fun slot => slot.start == r.startTime)) then
        .error (.badRequest "Selected time slot is not available")
      else
        let newBooking : Booking :=
          { id := Nat.repr (st.bookings.length + 1)
            customerId := r.customerId, providerId := r.providerId
            serviceId := r.serviceId, date := r.date
            startTime := r.startTime, endTime := endTime
            status := .pending
            totalPrice := service.price, currency := service.currency
            notes := r.notes, createdAt := now, updatedAt := now }
        .ok ({ st with bookings := st.bookings ++ [newBooking] }, newBooking)

/-- The loosely-typed `PUT /api/bookings/:id` body: the handler spreads the
request over the stored booking, so every supplied field overwrites the stored
one with no validation.  The fields the clients of this API send are
modelled. -/
structure BookingUpdate where
  status : Option BStatus
  date : Option String
  startTime : Option String
  endTime : Option String
  notes : Option String
deriving DecidableEq, Repr

/-- `PUT /api/bookings/:id` (`handlers.ts:1170-1193`): unvalidated merge of
the request body over the stored booking, plus a fresh `updatedAt`. -/
def updateBooking (now : String) (st : MState) (id : String) (u : BookingUpdate) :
    Except ApiErr (MState × Booking) :=
  match findIdxO (fun b => b.id == id) st.bookings with
  | none => .error (.notFound "Booking not found")
  | some i =>
    match st.bookings[i]? with
    | none => .error (.notFound "Booking not found") -- unreachable: `findIdxO` returns in-range indices
    | some b =>
      let b' : Booking :=
        { b with
          status := u.status.getD b.status
          date := u.date.getD b.date
          startTime := u.startTime.getD b.startTime
          endTime := u.endTime.getD b.endTime
          notes := match u.notes with | some n => some n | none => b.notes
          updatedAt := now }
      .ok ({ st with bookings := st.bookings.set i b' }, b')

/-- `DELETE /api/bookings/:id` (`handlers.ts:1195-1215`): "Instead of
deleting, update status to cancelled". -/
def cancelBooking (now : String) (st : MState) (id : String) :
    Except ApiErr MState :=
  match findIdxO (fun b => b.id == id) st.bookings with
  | none => .error (.notFound "Booking not found")
  | some i =>
    match st.bookings[i]? with
    | none => .error (.notFound "Booking not found") -- unreachable: `findIdxO` returns in-range indices
    | some b =>
      .ok { st with
            bookings := st.bookings.set i
              { b with status := .cancelled, updatedAt := now } }

/-- `GET /api/availability` (`handlers.ts:1218-1238`): a missing query
parameter (modelled as `none` or the empty string, both falsy) is a 400;
otherwise the handler always succeeds, echoing the parameters with the
computed slots.  It performs no mutation (the embedding returns no state). -/
def availabilityQuery (dow : String → Nat) (st : MState)
    (providerId? date? : Option String) :
    Except ApiErr (String × String × List Period) :=
  let providerId := providerId?.getD ""
  let date := date?.getD ""
  if providerId == "" || date == "" then
    .error (.badRequest "Provider ID and date are required")
  else
    .ok (providerId, date, generateAvailableSlots dow st providerId date)

/-! ## Review handlers -/

structure ReviewRequest where
  bookingId : String
  customerId : String
  providerId : String
  serviceId : String
  /-- `data.rating`; the value `0` models a missing rating (falsy). -/
  rating : ℚ
  comment : Option String
deriving DecidableEq, Repr

/-- `reduce((sum, review) => sum + review.rating, 0)`. -/
def ratingSum (rs : List Review) : ℚ := rs.foldl (fun sum rv => sum + rv.rating) 0

/-- `POST /api/reviews` (`handlers.ts:1298-1363`). -/
def createReview (now : String) (st : MState) (r : ReviewRequest) :
    Except ApiErr (MState × Review) :=
  if r.bookingId == "" || r.customerId == "" || r.providerId == "" ||
      r.serviceId == "" || r.rating == 0 then
    .error (.badRequest "Missing required review information")
  else
    match st.bookings.find? (fun b => b.id == r.bookingId) with
    | none => .error (.notFound "Booking not found")
    | some booking =>
      if booking.status != BStatus.completed then
        .error (.badRequest "Can only review completed bookings")
      else
        match st.reviews.find? (fun rv => rv.bookingId == r.bookingId) with
        | some _ => .error (.badRequest "Review already exists for this booking")
        | none =>
          let newReview : Review :=
            { id := Nat.repr (st.reviews.length + 1)
              bookingId := r.bookingId, customerId := r.customerId
              providerId := r.providerId, serviceId := r.serviceId
              rating := r.rating, comment := r.comment.getD ""
              createdAt := now, updatedAt := now }
          let reviews := st.reviews ++ [newReview]
          let providerReviews := reviews.filter (fun rv => rv.providerId == r.providerId)
          let providers :=
            match findIdxO (fun p => p.id == r.providerId) st.providers with
            | none => st.providers
            | some i =>
              match st.providers[i]? with
              | none => st.providers -- unreachable: `findIdxO` returns in-range indices
              | some p =>
                st.providers.set i
                  { p with
                    rating := ratingSum providerReviews / (providerReviews.length : ℚ)
                    reviewCount := providerReviews.length }
          .ok ({ st with reviews := reviews, providers := providers }, newReview)

/-- The `PUT /api/reviews/:id` body; `rating = 0` and `comment = ""` model
missing fields (the source merges with `data.x || old.x`, so falsy values keep
the stored one). -/
structure ReviewUpdate where
  rating : ℚ
  comment : String
deriving DecidableEq, Repr

/-- `PUT /api/reviews/:id` (`handlers.ts:1365-1399`): merge, then recompute
the provider's rating (the review count is left as is). -/
def updateReview (now : String) (st : MState) (id : String) (u : ReviewUpdate) :
    Except ApiErr (MState × Review) :=
  match findIdxO (fun rv => rv.id == id) st.reviews with
  | none => .error (.notFound "Review not found")
  | some i =>
    match st.reviews[i]? with
    | none => .error (.notFound "Review not found") -- unreachable: `findIdxO` returns in-range indices
    | some rv =>
      let rv' : Review :=
        { rv with
          rating := if u.rating == 0 then rv.rating else u.rating
          comment := if u.comment == "" then rv.comment else u.comment
          updatedAt := now }
      let reviews := st.reviews.set i rv'
      let providerReviews := reviews.filter (fun x => x.providerId == rv'.providerId)
      let providers :=
        match findIdxO (fun p => p.id == rv'.providerId) st.providers with
        | none => st.providers
        | some j =>
          match st.providers[j]? with
          | none => st.providers -- unreachable: `findIdxO` returns in-range indices
          | some p =>
            st.providers.set j
              { p with rating := ratingSum providerReviews / (providerReviews.length : ℚ) }
      .ok ({ st with reviews := reviews, providers := providers }, rv')

/-- `DELETE /api/reviews/:id` (`handlers.ts:1401-1434`): splice the review
out, then recompute the provider's aggregate; an emptied review list leaves
the rating at its previous value but zeroes the count. -/
def deleteReview (st : MState) (id : String) : Except ApiErr MState :=
  match findIdxO (fun rv => rv.id == id) st.reviews with
  | none => .error (.notFound "Review not found")
  | some i =>
    match st.reviews[i]? with
    | none => .error (.notFound "Review not found") -- unreachable: `findIdxO` returns in-range indices
    | some rv =>
      let reviews := st.reviews.eraseIdx i
      let providerReviews := reviews.filter (fun x => x.providerId == rv.providerId)
      let providers :=
        match findIdxO (fun p => p.id == rv.providerId) st.providers with
        | none => st.providers
        | some j =>
          match st.providers[j]? with
          | none => st.providers -- unreachable: `findIdxO` returns in-range indices
          | some p =>
            st.providers.set j
              { p with
                rating :=
                  if 0 < providerReviews.length then
                    ratingSum providerReviews / (providerReviews.length : ℚ)
                  else p.rating
                reviewCount := providerReviews.length }
      .ok { st with reviews := reviews, providers := providers }

/-- Modelled from the spec: the repository has no service-mutation endpoint in
`src/mocks/handlers.ts` (the provider UI issues `PUT /api/services/:id`, which
no handler serves); the spec places service price editing with out-of-scope
provider management.  It is modelled as replacing the stored service's price,
touching nothing else. -/
def updateServicePrice (st : MState) (serviceId : String) (newPrice : ℚ) : MState :=
  { st with
    services := st.services.map (fun s =>
      if s.id == serviceId then { s with price := newPrice } else s) }

/-! ## The exposed mutating operations and reachability -/

/-- One call to a mutating endpoint of the booking/review API. -/
inductive Op where
  | createB (now : String) (r : BookingRequest)
  | updateB (now : String) (id : String) (u : BookingUpdate)
  | cancelB (now : String) (id : String)
  | createR (now : String) (r : ReviewRequest)
  | updateR (now : String) (id : String) (u : ReviewUpdate)
  | deleteR (id : String)

/-- Effect of one operation on the stores (an error response leaves the
stores untouched: every handler validates before mutating). -/
def applyOp (dow : String → Nat) (st : MState) : Op → MState
  | .createB now r =>
    match createBooking dow now st r with
    | .ok (st', _) => st'
    | .error _ => st
  | .updateB now id u =>
    match updateBooking now st id u with
    | .ok (st', _) => st'
    | .error _ => st
  | .cancelB now id =>
    match cancelBooking now st id with
    | .ok st' => st'
    | .error _ => st
  | .createR now r =>
    match createReview now st r with
    | .ok (st', _) => st'
    | .error _ => st
  | .updateR now id u =>
    match updateReview now st id u with
    | .ok (st', _) => st'
    | .error _ => st
  | .deleteR id =>
    match deleteReview st id with
    | .ok st' => st'
    | .error _ => st

def applyOps (dow : String → Nat) (st : MState) (ops : List Op) : MState :=
  ops.foldl (applyOp dow) st

/-- A booking that consumes its slot. -/
def isOccupying (b : Booking) : Bool :=
  b.status == BStatus.pending || b.status == BStatus.confirmed

/-- The spec's invariant: per provider and date, occupying bookings have
pairwise non-overlapping half-open `[startTime, endTime)` intervals
(compared as minute-of-day values). -/
def NoOverlapInvariant (st : MState) : Prop :=
  ∀ b1 ∈ st.bookings, ∀ b2 ∈ st.bookings,
    b1.id ≠ b2.id → isOccupying b1 = true → isOccupying b2 = true →
    b1.providerId = b2.providerId → b1.date = b2.date →
    ¬ (timeVal b1.startTime < timeVal b2.endTime ∧
       timeVal b2.startTime < timeVal b1.endTime)

instance (st : MState) : Decidable (NoOverlapInvariant st) := by
  unfold NoOverlapInvariant
  infer_instance

/-! ## The seed mock data (`handlers.ts:107-715`)

The seed bookings' dates are produced from `new Date()` at module load; they
are instantiated here at the reference instant `today = 2025-06-01` (a
Sunday), so `yesterday = "2025-05-31"`, `tomorrow = "2025-06-02"`,
`addDays(today, 3) = "2025-06-04"` and `nextWeek = "2025-06-08"`.
`createdAt`/`updatedAt` timestamp strings are irrelevant to every handler
(they are only stored) and are filled with fixed ISO strings. -/

def week0917 : List (String × WorkEntry) :=
  [("0", ⟨false, []⟩),
   ("1", ⟨true, [⟨"09:00", "17:00"⟩]⟩),
   ("2", ⟨true, [⟨"09:00", "17:00"⟩]⟩),
   ("3", ⟨true, [⟨"09:00", "17:00"⟩]⟩),
   ("4", ⟨true, [⟨"09:00", "17:00"⟩]⟩),
   ("5", ⟨true, [⟨"09:00", "17:00"⟩]⟩),
   ("6", ⟨true, [⟨"10:00", "15:00"⟩]⟩)]

def week1020 : List (String × WorkEntry) :=
  [("0", ⟨true, [⟨"10:00", "20:00"⟩]⟩),
   ("1", ⟨true, [⟨"10:00", "20:00"⟩]⟩),
   ("2", ⟨true, [⟨"10:00", "20:00"⟩]⟩),
   ("3", ⟨true, [⟨"10:00", "20:00"⟩]⟩),
   ("4", ⟨true, [⟨"10:00", "20:00"⟩]⟩),
   ("5", ⟨true, [⟨"14:00", "22:00"⟩]⟩),
   ("6", ⟨false, []⟩)]

def week1019 : List (String × WorkEntry) :=
  [("0", ⟨false, []⟩),
   ("1", ⟨true, [⟨"10:00", "19:00"⟩]⟩),
   ("2", ⟨true, [⟨"10:00", "19:00"⟩]⟩),
   ("3", ⟨true, [⟨"10:00", "19:00"⟩]⟩),
   ("4", ⟨true, [⟨"10:00", "19:00"⟩]⟩),
   ("5", ⟨true, [⟨"10:00", "19:00"⟩]⟩),
   ("6", ⟨true, [⟨"09:00", "17:00"⟩]⟩)]

def seedProviders : List Provider :=
  [{ id := "1", workingHours := week0917, rating := 4.8, reviewCount := 124 },
   { id := "2", workingHours := week1020, rating := 4.9, reviewCount := 89 },
   { id := "3", workingHours := week1019, rating := 4.7, reviewCount := 56 }]

def seedServices : List Service :=
  [{ id := "1", providerId := "1", price := 75, currency := "USD", duration := 60, available := true },
   { id := "2", providerId := "1", price := 90, currency := "USD", duration := 75, available := true },
   { id := "3", providerId := "1", price := 65, currency := "USD", duration := 90, available := true },
   { id := "4", providerId := "1", price := 120, currency := "USD", duration := 60, available := true },
   { id := "5", providerId := "2", price := 150, currency := "AED", duration := 90, available := true },
   { id := "6", providerId := "2", price := 280, currency := "AED", duration := 60, available := true },
   { id := "7", providerId := "2", price := 350, currency := "AED", duration := 75, available := true },
   { id := "8", providerId := "2", price := 320, currency := "AED", duration := 120, available := true },
   { id := "9", providerId := "3", price := 35, currency := "USD", duration := 30, available := true },
   { id := "10", providerId := "3", price := 25, currency := "USD", duration := 20, available := true },
   { id := "11", providerId := "3", price := 45, currency := "USD", duration := 45, available := true },
   { id := "12", providerId := "3", price := 55, currency := "USD", duration := 60, available := true }]

def seedBookings : List Booking :=
  [{ id := "1", customerId := "1", providerId := "1", serviceId := "1"
     date := "2025-05-31", startTime := "10:00", endTime := "11:00"
     status := .completed, totalPrice := 75, currency := "USD"
     notes := some "First time customer"
     createdAt := "2025-05-29T09:00:00.000Z", updatedAt := "2025-05-31T09:00:00.000Z" },
   { id := "2", customerId := "1", providerId := "2", serviceId := "6"
     date := "2025-06-02", startTime := "14:00", endTime := "15:00"
     status := .confirmed, totalPrice := 280, currency := "AED"
     notes := none
     createdAt := "2025-05-31T09:00:00.000Z", updatedAt := "2025-05-31T09:00:00.000Z" },
   { id := "3", customerId := "3", providerId := "2", serviceId := "5"
     date := "2025-06-08", startTime := "16:00", endTime := "17:30"
     status := .confirmed, totalPrice := 150, currency := "AED"
     notes := some "First hammam experience"
     createdAt := "2025-05-29T09:00:00.000Z", updatedAt := "2025-05-29T09:00:00.000Z" },
   { id := "4", customerId := "3", providerId := "3", serviceId := "12"
     date := "2025-05-31", startTime := "11:00", endTime := "12:00"
     status := .completed, totalPrice := 55, currency := "USD"
     notes := none
     createdAt := "2025-05-26T09:00:00.000Z", updatedAt := "2025-05-31T09:00:00.000Z" },
   { id := "5", customerId := "1", providerId := "1", serviceId := "2"
     date := "2025-06-04", startTime := "15:00", endTime := "16:15"
     status := .pending, totalPrice := 90, currency := "USD"
     notes := some "Special occasion makeup"
     createdAt := "2025-06-01T09:00:00.000Z", updatedAt := "2025-06-01T09:00:00.000Z" }]

def seedReviews : List Review :=
  [{ id := "1", bookingId := "1", customerId := "1", providerId := "1", serviceId := "1"
     rating := 5
     comment := "Amazing haircut! Exactly what I wanted and the stylist was very professional."
     createdAt := "2025-05-31T09:00:00.000Z", updatedAt := "2025-05-31T09:00:00.000Z" },
   { id := "2", bookingId := "4", customerId := "3", providerId := "3", serviceId := "12"
     rating := 4
     comment := "خدمة جيدة جدًا، ولكن كان هناك انتظار طويل قليلاً."
     createdAt := "2025-05-31T09:00:00.000Z", updatedAt := "2025-05-31T09:00:00.000Z" }]

/-- The initial data of the mock API. -/
def seedState : MState :=
  { providers := seedProviders, services := seedServices
    bookings := seedBookings, reviews := seedReviews }

/-- A state is reachable when some sequence of exposed operations produces it
from the seed data. -/
def Reachable (dow : String → Nat) (st : MState) : Prop :=
  ∃ ops : List Op, st = applyOps dow seedState ops

/-! ## Parse/format round trip -/

theorem digitChar_ne_colon : ∀ x, x < 10 → Nat.digitChar x ≠ ':' := by decide

theorem digitChar_toNat : ∀ x, x < 10 → (Nat.digitChar x).toNat = 48 + x := by decide

theorem pad2_no_colon {n : Nat} (hn : n < 100) : ∀ c ∈ pad2 n, c ≠ ':' := by
  rw [pad2_eq hn]
  intro c hc
  simp only [List.mem_cons, List.not_mem_nil, or_false] at hc
  rcases hc with rfl | rfl
  · exact digitChar_ne_colon _ (by omega)
  · exact digitChar_ne_colon _ (by omega)

theorem splitOn_no_sep {sep : Char} : ∀ {l : List Char}, (∀ c ∈ l, c ≠ sep) →
    splitOn sep l = [l] := by
  intro l
  induction l with
  | nil => intro; rfl
  | cons c cs ih =>
    intro h
    rw [splitOn, if_neg (h c (by simp)), ih (fun x hx => h x (by simp [hx]))]

theorem splitOn_append {sep : Char} : ∀ {l r : List Char}, (∀ c ∈ l, c ≠ sep) →
    splitOn sep (l ++ sep :: r) = l :: splitOn sep r := by
  intro l
  induction l with
  | nil => intro r _; rw [List.nil_append, splitOn, if_pos rfl]
  | cons c cs ih =>
    intro r h
    rw [List.cons_append, splitOn, if_neg (h c (by simp)),
      ih (fun x hx => h x (by simp [hx]))]

theorem digitsVal_pad2 {n : Nat} (hn : n < 100) : digitsVal (pad2 n) 0 = n := by
  rw [pad2_eq hn]
  unfold digitsVal digitsVal digitsVal
  rw [digitChar_toNat _ (by omega), digitChar_toNat _ (by omega)]
  omega

/-- Parsing inverts formatting: the embedding of `split(':').map(Number)`
recovers the components `padStart(2, '0')` printed. -/
theorem parseHM_fmtTime {h m : Nat} (hh : h < 100) (hm : m < 100) :
    parseHM (fmtTime h m) = (h, m) := by
  unfold parseHM fmtTime
  show (match splitOn ':' (pad2 h ++ ':' :: pad2 m) with
    | [a, b] => (digitsVal a 0, digitsVal b 0) | _ => (0, 0)) = (h, m)
  rw [splitOn_append (pad2_no_colon hh), splitOn_no_sep (pad2_no_colon hm)]
  show (digitsVal (pad2 h) 0, digitsVal (pad2 m) 0) = (h, m)
  rw [digitsVal_pad2 hh, digitsVal_pad2 hm]

theorem timeVal_minStr {t : Nat} (ht : t < 6000) : timeVal (minStr t) = t := by
  unfold timeVal minStr
  rw [parseHM_fmtTime (by omega) (by omega)]
  show 60 * (t / 60) + t % 60 = t
  omega

theorem minStr_inj {a b : Nat} (ha : a < 6000) (hb : b < 6000)
    (h : minStr a = minStr b) : a = b := by
  have := timeVal_minStr ha
  rw [h, timeVal_minStr hb] at this
  omega

theorem minStr_length {t : Nat} (ht : t < 6000) : (minStr t).length = 5 := by
  show (pad2 (t / 60) ++ ':' :: pad2 (t % 60)).length = 5
  rw [pad2_eq (show t / 60 < 100 by omega), pad2_eq (show t % 60 < 100 by omega)]
  rfl

/-! ## Shape of generated slots -/

/-- A key `lookup` hits is present in the association list. -/
theorem lookup_mem {k : String} {v : WorkEntry} :
    ∀ {l : List (String × WorkEntry)}, List.lookup k l = some v → (k, v) ∈ l := by
  intro l
  induction l with
  | nil => intro h; exact absurd h (by simp [List.lookup])
  | cons a as ih =>
    intro h
    rw [List.lookup] at h
    split at h
    · next heq =>
      cases h
      have : k = a.1 := by simpa using heq
      simp [this]
    · exact List.mem_cons_of_mem _ (ih h)

/-- Every slot the generator emits for a well-formed period is a
`[t, t+30)` window of formatted in-range minute values whose end does not
pass the period's end. -/
theorem periodSlots_shape {p : Period} {s : Period}
    (hsm : (parseHM p.start).2 < 60) (hem : (parseHM p.stop).2 < 60)
    (heh : (parseHM p.stop).1 < 100)
    (hs : s ∈ periodSlots p) :
    ∃ t : Nat, s = ⟨minStr t, minStr (t + 30)⟩ ∧
      timeVal p.start ≤ t ∧ t + 30 ≤ timeVal p.stop ∧ t + 30 < 6000 := by
  unfold periodSlots at hs
  rw [slotLoop_spec _ _ _ _ hsm hem, List.map_map, List.mem_map] at hs
  obtain ⟨k, hk, hmap⟩ := hs
  rw [List.mem_range] at hk
  set sh := (parseHM p.start).1
  set sm := (parseHM p.start).2
  set eh := (parseHM p.stop).1
  set em := (parseHM p.stop).2
  refine ⟨sh * 60 + sm + 30 * k, ?_, ?_, ?_, ?_⟩
  · rw [← hmap]
    show Period.mk (fmtTime _ _) (fmtTime _ _) = _
    unfold pairAt minStr
    rfl
  · show 60 * sh + sm ≤ sh * 60 + sm + 30 * k
    omega
  · show sh * 60 + sm + 30 * k + 30 ≤ 60 * eh + em
    omega
  · omega

/-! ## The booked-slot test versus half-open interval overlap -/

/-- On well-formed proper intervals, the filter's three-disjunct string test
is exactly the half-open overlap predicate `s < bEnd ∧ bStart < e`. -/
theorem bookingBlocks_iff {bs be s e : Nat}
    (hbe : be < 6000) (hs : s < 6000) (he : e < 6000)
    (h1 : bs < be) (h2 : s < e) :
    bookingBlocks (minStr bs) (minStr be) (minStr s) (minStr e) = true ↔
      s < be ∧ bs < e := by
  have hbs : bs < 6000 := by omega
  unfold bookingBlocks
  simp only [Bool.or_eq_true, Bool.and_eq_true, strLe_minStr hbs hs,
    strLt_minStr hs hbe, strLt_minStr hbs he, strLe_minStr he hbe,
    strLe_minStr hs hbs, strLe_minStr hbe he]
  omega

/-! ## Concrete scenarios used by the claim analyses -/

/-- Weekday function for the concrete runs: `2025-06-02` is a Monday (weekday
index 1); every other date string is mapped to Sunday. -/
def dowMon : String → Nat := fun d => if d = "2025-06-02" then 1 else 0

/-- Book service 3 (duration 90 min) with provider 1 on Monday at 13:00. -/
def opBook1300 : Op := .createB "2025-06-01T12:00:00.000Z"
  ⟨"1", "1", "3", "2025-06-02", "13:00", none⟩

/-- Book service 3 (duration 90 min) with provider 1 on Monday at 12:00. -/
def opBook1200 : Op := .createB "2025-06-01T12:05:00.000Z"
  ⟨"1", "1", "3", "2025-06-02", "12:00", none⟩

/-- Seed data after the 13:00 booking. -/
def stateAfter1300 : MState := applyOps dowMon seedState [opBook1300]

/-- Seed data after both bookings: booking `"6"` occupies `[13:00, 14:30)` and
booking `"7"` occupies `[12:00, 13:30)` — same provider, same date, both
`pending`, overlapping on `[13:00, 13:30)`. -/
def overbookedState : MState := applyOps dowMon seedState [opBook1300, opBook1200]

/-- The P5 scenario: a provider open Monday 09:00–10:00 offering a 45-minute
service, with no bookings. -/
def entry0910 : WorkEntry := ⟨true, [⟨"09:00", "10:00"⟩]⟩

def p5State : MState :=
  { providers := [{ id := "p1", workingHours := [("1", entry0910)], rating := 0, reviewCount := 0 }]
    services := [{ id := "s45", providerId := "p1", price := 10, currency := "USD",
                   duration := 45, available := true }]
    bookings := []
    reviews := [] }

/-! ## Claims -/

/-- C3: the overlap test used to filter availability returns true iff
`start < bEnd ∧ bStart < end` (half-open semantics) on well-formed proper
intervals; a booking `{10:00, 11:00}` does not conflict with a request for
`{11:00, 12:00}`, while `{10:30, 11:30}` does conflict. -/
theorem C3_overlap_halfopen :
    (∀ bs be s e : Nat, be < 6000 → e < 6000 → bs < be → s < e →
      (bookingBlocks (minStr bs) (minStr be) (minStr s) (minStr e) = true ↔
        s < be ∧ bs < e)) ∧
    bookingBlocks "10:00" "11:00" "11:00" "12:00" = false ∧
    bookingBlocks "10:00" "11:00" "10:30" "11:30" = true := by
  refine ⟨?_, by decide, by decide⟩
  intro bs be s e hbe he h1 h2
  exact bookingBlocks_iff hbe (by omega) he h1 h2

/-- Witness for C3 at the P4 inputs `[10:00, 11:00)` against `[11:00, 12:00)`
and `[10:30, 11:30)` (i.e. minute values 600, 660, 720, 630, 690). -/
theorem C3_overlap_halfopen_witness :
    (bookingBlocks (minStr 600) (minStr 660) (minStr 660) (minStr 720) = true ↔
      660 < 660 ∧ 600 < 720) ∧
    (bookingBlocks (minStr 600) (minStr 660) (minStr 630) (minStr 690) = true ↔
      630 < 660 ∧ 600 < 690) :=
  ⟨C3_overlap_halfopen.1 600 660 660 720 (by norm_num) (by norm_num) (by norm_num) (by norm_num),
   C3_overlap_halfopen.1 600 660 630 690 (by norm_num) (by norm_num) (by norm_num) (by norm_num)⟩

/-- C4: for each open interval the loop emits the slot `[t, t+30)` for exactly
the step points `t` (walking from the interval start in 30-minute steps) with
`t + 30 ≤ end`, in chronological order; for `09:00–17:00` it yields 16 slots,
first `{09:00, 09:30}`, last `{16:30, 17:00}`.  (`pairAt t` is the
`[t, t+30)` window in hour/minute form.) -/
theorem C4_slot_generation :
    (∀ h m eh em : Nat, m < 60 → em < 60 →
      slotLoop h m eh em =
        (List.range ((eh * 60 + em - (h * 60 + m)) / 30)).map
          (fun k => pairAt (h * 60 + m + 30 * k))) ∧
    (periodSlots ⟨"09:00", "17:00"⟩).length = 16 ∧
    (periodSlots ⟨"09:00", "17:00"⟩).head? = some ⟨"09:00", "09:30"⟩ ∧
    (periodSlots ⟨"09:00", "17:00"⟩).getLast? = some ⟨"16:30", "17:00"⟩ :=
  ⟨fun h m eh em hm hem => slotLoop_spec h m eh em hm hem,
   by decide, by decide, by decide⟩

/-- Witness for C4's universally quantified part at the `09:00–17:00`
interval. -/
theorem C4_slot_generation_witness :
    slotLoop 9 0 17 0 =
      (List.range ((17 * 60 + 0 - (9 * 60 + 0)) / 30)).map
        (fun k => pairAt (9 * 60 + 0 + 30 * k)) :=
  C4_slot_generation.1 9 0 17 0 (by norm_num) (by norm_num)

/-- C10: every time emitted by the slot generator is a zero-padded
five-character `"HH:mm"` string (the formatted form `minStr t` of an in-range
minute value), and on such strings the lexicographic comparisons used by the
filter agree with comparison of the encoded minute values — a monotone order
embedding. -/
theorem C10_string_time_order :
    (∀ p : Period, (parseHM p.start).2 < 60 → (parseHM p.stop).2 < 60 →
      (parseHM p.stop).1 < 24 →
      ∀ s ∈ periodSlots p, ∃ t : Nat, t + 30 < 1440 ∧
        s.start = minStr t ∧ s.stop = minStr (t + 30) ∧
        s.start.length = 5 ∧ s.stop.length = 5) ∧
    (∀ a b : Nat, a < 6000 → b < 6000 →
      (strLt (minStr a) (minStr b) = true ↔ a < b) ∧
      (strLe (minStr a) (minStr b) = true ↔ a ≤ b)) := by
  constructor
  · intro p hsm hem heh s hs
    obtain ⟨t, hshape, hlo, hhi, _⟩ := periodSlots_shape hsm hem (by omega) hs
    have ht : t + 30 < 1440 := by
      have : timeVal p.stop = 60 * (parseHM p.stop).1 + (parseHM p.stop).2 := rfl
      omega
    refine ⟨t, ht, ?_, ?_, ?_, ?_⟩
    · rw [hshape]
    · rw [hshape]
    · rw [hshape]; exact minStr_length (by omega)
    · rw [hshape]; exact minStr_length (by omega)
  · intro a b ha hb
    exact ⟨strLt_minStr ha hb, strLe_minStr ha hb⟩

/-- Witness for C10 at the `09:00–17:00` period (slot `{09:00, 09:30}`) and at
the minute values 630 and 660. -/
theorem C10_string_time_order_witness :
    (∃ t : Nat, t + 30 < 1440 ∧
      (Period.mk "09:00" "09:30").start = minStr t ∧
      (Period.mk "09:00" "09:30").stop = minStr (t + 30) ∧
      (Period.mk "09:00" "09:30").start.length = 5 ∧
      (Period.mk "09:00" "09:30").stop.length = 5) ∧
    (strLt (minStr 630) (minStr 660) = true ↔ 630 < 660) ∧
    (strLe (minStr 630) (minStr 660) = true ↔ 630 ≤ 660) :=
  ⟨C10_string_time_order.1 ⟨"09:00", "17:00"⟩ (by decide) (by decide) (by decide)
      ⟨"09:00", "09:30"⟩ (by decide),
   (C10_string_time_order.2 630 660 (by norm_num) (by norm_num)).1,
   (C10_string_time_order.2 630 660 (by norm_num) (by norm_num)).2⟩

/-- C6, counterexample: an availability query for an unknown provider does
not fail with NotFound — it succeeds with an empty slot list (seed data has no
provider `"99"`). -/
theorem C6_counterexample :
    (seedState.providers.find? (fun p => p.id == "99") = none) ∧
    availabilityQuery dowMon seedState (some "99") (some "2025-06-02") =
      .ok ("99", "2025-06-02", []) := by
  exact ⟨by decide, rfl⟩

/-- C6, amended: a present, unknown providerId yields a successful response
with an empty slot list (no NotFound); the only failure mode of the endpoint
is a missing parameter (400); the computation performs no mutation (the
embedding of the handler returns no state). -/
theorem C6_unknown_provider_empty :
    (∀ (dow : String → Nat) (st : MState) (pid date : String),
      pid ≠ "" → date ≠ "" →
      st.providers.find? (fun p => p.id == pid) = none →
      availabilityQuery dow st (some pid) (some date) = .ok (pid, date, [])) ∧
    (∀ (dow : String → Nat) (st : MState) (pid? date? : Option String),
      pid?.getD "" = "" ∨ date?.getD "" = "" →
      availabilityQuery dow st pid? date? =
        .error (.badRequest "Provider ID and date are required")) := by
  constructor
  · intro dow st pid date hpid hdate hfind
    simp only [availabilityQuery, Option.getD_some]
    rw [if_neg (by simp [hpid, hdate])]
    simp only [generateAvailableSlots, hfind]
  · intro dow st pid? date? h
    simp only [availabilityQuery]
    rw [if_pos]
    rcases h with h | h <;> simp [h]

/-- Witness for C6 at the seed state with the unknown provider `"99"`, and at
a missing providerId. -/
theorem C6_unknown_provider_empty_witness :
    availabilityQuery dowMon seedState (some "99") (some "2025-06-02") =
      .ok ("99", "2025-06-02", []) ∧
    availabilityQuery dowMon seedState none (some "2025-06-02") =
      .error (.badRequest "Provider ID and date are required") :=
  ⟨C6_unknown_provider_empty.1 dowMon seedState "99" "2025-06-02"
      (by decide) (by decide) (by decide),
   C6_unknown_provider_empty.2 dowMon seedState none (some "2025-06-02")
      (Or.inl rfl)⟩

/-- C5, counterexample: the seed booking `"1"` has terminal status
`completed`, yet `PUT /api/bookings/1` with `status = pending` succeeds and
sets the status to `pending` — there is no InvalidTransition rejection. -/
theorem C5_counterexample :
    ((seedState.bookings.find? (fun x => x.id == "1")).map Booking.status =
      some BStatus.completed) ∧
    (updateBooking "2025-06-02T09:00:00.000Z" seedState "1"
        ⟨some .pending, none, none, none, none⟩).isOk = true ∧
    ((updateBooking "2025-06-02T09:00:00.000Z" seedState "1"
        ⟨some .pending, none, none, none, none⟩).toOption.map
      (fun r => r.2.status)) = some BStatus.pending := by
  refine ⟨by decide, by decide, by decide⟩

/-- C5, amended: the update handler performs no status-transition validation:
for every existing booking and every requested status (and other merged
fields), the update succeeds, the stored booking's status becomes exactly the
requested one (or stays put if the request carries none), and all other
bookings are untouched. -/
theorem C5_update_unvalidated (now : String) (st : MState) (id : String)
    (u : BookingUpdate) (i : Nat) (b : Booking)
    (hidx : findIdxO (fun x => x.id == id) st.bookings = some i)
    (hb : st.bookings[i]? = some b) :
    ∃ st' b', updateBooking now st id u = .ok (st', b') ∧
      b'.status = u.status.getD b.status ∧
      st'.bookings[i]? = some b' ∧
      ∀ j, j ≠ i → st'.bookings[j]? = st.bookings[j]? := by
  simp only [updateBooking, hidx, hb]
  refine ⟨_, _, rfl, rfl, ?_, ?_⟩
  · exact List.getElem?_set_self (List.getElem?_eq_some.mp hb).1
  · intro j hj
    exact List.getElem?_set_ne (fun h => hj h.symm)

/-- Witness for C5 at the seed state: booking `"1"` (index 0, completed) is
updated to `pending`. -/
theorem C5_update_unvalidated_witness :
    ∃ st' b', updateBooking "2025-06-02T09:00:00.000Z" seedState "1"
        ⟨some .pending, none, none, none, none⟩ = .ok (st', b') ∧
      b'.status = (some BStatus.pending).getD BStatus.completed ∧
      st'.bookings[0]? = some b' ∧
      ∀ j, j ≠ 0 → st'.bookings[j]? = seedState.bookings[j]? := by
  have h := C5_update_unvalidated "2025-06-02T09:00:00.000Z" seedState "1"
    ⟨some .pending, none, none, none, none⟩ 0
    { id := "1", customerId := "1", providerId := "1", serviceId := "1"
      date := "2025-05-31", startTime := "10:00", endTime := "11:00"
      status := .completed, totalPrice := 75, currency := "USD"
      notes := some "First time customer"
      createdAt := "2025-05-29T09:00:00.000Z", updatedAt := "2025-05-31T09:00:00.000Z" }
    (by decide) (by decide)
  exact h

/-- C9: cancellation only rewrites the targeted booking's status (to
`cancelled`) and its `updatedAt`; the record stays in the ledger (same length,
same position, all other fields as before) and every other booking — and the
other three stores — are unchanged. -/
theorem C9_cancel_frame (now : String) (st : MState) (id : String)
    (i : Nat) (b : Booking)
    (hidx : findIdxO (fun x => x.id == id) st.bookings = some i)
    (hb : st.bookings[i]? = some b) :
    ∃ st', cancelBooking now st id = .ok st' ∧
      st'.providers = st.providers ∧ st'.services = st.services ∧
      st'.reviews = st.reviews ∧
      st'.bookings.length = st.bookings.length ∧
      st'.bookings[i]? = some { b with status := .cancelled, updatedAt := now } ∧
      ∀ j, j ≠ i → st'.bookings[j]? = st.bookings[j]? := by
  simp only [cancelBooking, hidx, hb]
  refine ⟨_, rfl, rfl, rfl, rfl, List.length_set _ _ _, ?_, ?_⟩
  · exact List.getElem?_set_self (List.getElem?_eq_some.mp hb).1
  · intro j hj
    exact List.getElem?_set_ne (fun h => hj h.symm)

/-- Witness for C9 at the seed state: cancelling booking `"2"` (index 1,
confirmed). -/
theorem C9_cancel_frame_witness :
    ∃ st', cancelBooking "2025-06-01T18:00:00.000Z" seedState "2" = .ok st' ∧
      st'.providers = seedState.providers ∧ st'.services = seedState.services ∧
      st'.reviews = seedState.reviews ∧
      st'.bookings.length = seedState.bookings.length ∧
      st'.bookings[1]? = some
        { id := "2", customerId := "1", providerId := "2", serviceId := "6"
          date := "2025-06-02", startTime := "14:00", endTime := "15:00"
          status := .cancelled, totalPrice := 280, currency := "AED"
          notes := none
          createdAt := "2025-05-31T09:00:00.000Z"
          updatedAt := "2025-06-01T18:00:00.000Z" } ∧
      ∀ j, j ≠ 1 → st'.bookings[j]? = seedState.bookings[j]? := by
  have h := C9_cancel_frame "2025-06-01T18:00:00.000Z" seedState "2" 1
    { id := "2", customerId := "1", providerId := "2", serviceId := "6"
      date := "2025-06-02", startTime := "14:00", endTime := "15:00"
      status := .confirmed, totalPrice := 280, currency := "AED"
      notes := none
      createdAt := "2025-05-31T09:00:00.000Z", updatedAt := "2025-05-31T09:00:00.000Z" }
    (by decide) (by decide)
  exact h

/-- C2, counterexample: the P5 scenario — provider open `09:00–10:00`
offering a 45-minute service — still offers the `09:30` candidate start: the
availability computation never consults the service duration (it has no
service input at all), so the slot whose service window would end at `10:15`
is not excluded. -/
theorem C2_counterexample :
    ((p5State.services.find? (fun s => s.id == "s45")).map Service.duration = some 45) ∧
    Period.mk "09:30" "10:00" ∈
      generateAvailableSlots (fun _ => 1) p5State "p1" "2025-06-02" := by
  exact ⟨by decide, by decide⟩

/-- C2, amended: availability filtering is duration-independent — a candidate
slot `[t, t+30)` is offered iff it is generated from the day's open periods
and its own 30-minute window does not half-open-overlap any occupying
booking; a slot whose service window would extend past closing is offered all
the same (counterexample above: both `09:00` and `09:30` are returned in the
P5 scenario). -/
theorem C2_slot_filter_duration_free
    (dow : String → Nat) (st : MState) (pid date : String)
    (provider : Provider) (wh : WorkEntry)
    (hfind : st.providers.find? (fun p => p.id == pid) = some provider)
    (hwh : List.lookup (Nat.repr (dow date)) provider.workingHours = some wh)
    (hopen : wh.isOpen = true)
    (hperiods : ∀ p ∈ wh.slots,
      (parseHM p.start).2 < 60 ∧ (parseHM p.stop).2 < 60 ∧ (parseHM p.stop).1 < 100)
    (hbk : ∀ b ∈ occupying st.bookings pid date,
      b.startTime = minStr (timeVal b.startTime) ∧
      b.endTime = minStr (timeVal b.endTime) ∧
      timeVal b.startTime < timeVal b.endTime ∧ timeVal b.endTime < 6000) :
    (∀ t : Nat, t + 30 < 6000 →
      (Period.mk (minStr t) (minStr (t + 30)) ∈ generateAvailableSlots dow st pid date ↔
        Period.mk (minStr t) (minStr (t + 30)) ∈ wh.slots.flatMap periodSlots ∧
        ∀ b ∈ occupying st.bookings pid date,
          ¬ (t < timeVal b.endTime ∧ timeVal b.startTime < t + 30))) ∧
    (∀ s ∈ generateAvailableSlots dow st pid date,
      ∃ t : Nat, t + 30 < 6000 ∧ s = Period.mk (minStr t) (minStr (t + 30))) := by
  have hgen : generateAvailableSlots dow st pid date =
      (wh.slots.flatMap periodSlots).filter (fun slot =>
        !((occupying st.bookings pid date).any (fun b =>
          bookingBlocks b.startTime b.endTime slot.start slot.stop))) := by
    simp only [generateAvailableSlots, hfind, hwh, hopen, if_true]
  constructor
  · intro t ht
    rw [hgen, List.mem_filter]
    constructor
    · rintro ⟨hbase, hpred⟩
      refine ⟨hbase, ?_⟩
      intro b hbmem hover
      rw [Bool.not_eq_true', List.any_eq_false] at hpred
      have hblocks := hpred b hbmem
      obtain ⟨hbs, hbe, hlt, hbnd⟩ := hbk b hbmem
      rw [show (Period.mk (minStr t) (minStr (t + 30))).start = minStr t from rfl,
        show (Period.mk (minStr t) (minStr (t + 30))).stop = minStr (t + 30) from rfl,
        hbs, hbe] at hblocks
      exact hblocks
        ((bookingBlocks_iff hbnd (by omega) (by omega) hlt (by omega)).mpr hover)
    · rintro ⟨hbase, hfree⟩
      refine ⟨hbase, ?_⟩
      rw [Bool.not_eq_true', List.any_eq_false]
      intro b hbmem
      obtain ⟨hbs, hbe, hlt, hbnd⟩ := hbk b hbmem
      show ¬ bookingBlocks b.startTime b.endTime
        (Period.mk (minStr t) (minStr (t + 30))).start
        (Period.mk (minStr t) (minStr (t + 30))).stop = true
      rw [show (Period.mk (minStr t) (minStr (t + 30))).start = minStr t from rfl,
        show (Period.mk (minStr t) (minStr (t + 30))).stop = minStr (t + 30) from rfl,
        hbs, hbe]
      intro htrue
      exact hfree b hbmem
        ((bookingBlocks_iff hbnd (by omega) (by omega) hlt (by omega)).mp htrue)
  · intro s hs
    rw [hgen, List.mem_filter] at hs
    obtain ⟨hbase, _⟩ := hs
    rw [List.mem_flatMap] at hbase
    obtain ⟨p, hp, hsp⟩ := hbase
    obtain ⟨h1, h2, h3⟩ := hperiods p hp
    obtain ⟨u, hshape, _, _, hbnd⟩ := periodSlots_shape h1 h2 h3 hsp
    exact ⟨u, hbnd, hshape⟩

/-- Witness for C2 in the P5 scenario at the candidate start `09:30`
(minute 570). -/
theorem C2_slot_filter_duration_free_witness :
    Period.mk (minStr 570) (minStr (570 + 30)) ∈
        generateAvailableSlots (fun _ => 1) p5State "p1" "2025-06-02" ↔
      Period.mk (minStr 570) (minStr (570 + 30)) ∈ entry0910.slots.flatMap periodSlots ∧
      ∀ b ∈ occupying p5State.bookings "p1" "2025-06-02",
        ¬ (570 < timeVal b.endTime ∧ timeVal b.startTime < 570 + 30) :=
  (C2_slot_filter_duration_free (fun _ => 1) p5State "p1" "2025-06-02"
    ⟨"p1", [("1", entry0910)], 0, 0⟩ entry0910
    (by decide) (by decide) (by decide) (by decide) (by decide)).1 570 (by norm_num)

/-- C7: a successful booking request creates a `pending` booking whose
`endTime` is the request's start plus the service's duration (in minutes, the
sum staying within the day) and whose `totalPrice`/`currency` are snapshots of
the service at booking time; a later change of the service's price leaves the
stored bookings untouched. -/
theorem C7_booking_snapshot
    (dow : String → Nat) (now : String) (st : MState) (r : BookingRequest)
    (st' : MState) (nb : Booking) (service : Service)
    (hok : createBooking dow now st r = .ok (st', nb))
    (hsv : st.services.find? (fun s => s.id == r.serviceId) = some service)
    (hlt : timeVal r.startTime + service.duration < 1440) :
    nb.status = .pending ∧
    nb.endTime = minStr (timeVal r.startTime + service.duration) ∧
    nb.totalPrice = service.price ∧ nb.currency = service.currency ∧
    ∀ newPrice : ℚ,
      (updateServicePrice st' r.serviceId newPrice).bookings = st'.bookings := by
  simp only [createBooking, hsv] at hok
  split at hok
  · exact absurd hok (by simp)
  · split at hok
    · exact absurd hok (by simp)
    · rw [Except.ok.injEq, Prod.mk.injEq] at hok
      obtain ⟨hst, hnb⟩ := hok
      subst hst
      subst hnb
      refine ⟨rfl, ?_, rfl, rfl, fun _ => rfl⟩
      show fmtTime ((timeVal r.startTime + service.duration) / 60 % 24)
          ((timeVal r.startTime + service.duration) % 60) = _
      unfold minStr
      congr 1
      omega

/-- Witness for C7: booking service 3 (90 minutes, 65 USD) at 13:00 on the
seed data — the created booking is pending, ends at 14:30 (minute 870),
snapshots 65 USD, and a subsequent service-price change does not touch the
bookings store. -/
theorem C7_booking_snapshot_witness :
    ∃ st' nb, createBooking dowMon "2025-06-01T12:00:00.000Z" seedState
        ⟨"1", "1", "3", "2025-06-02", "13:00", none⟩ = .ok (st', nb) ∧
      nb.status = .pending ∧
      nb.endTime = minStr (timeVal "13:00" + 90) ∧
      nb.totalPrice = 65 ∧ nb.currency = "USD" ∧
      ∀ newPrice : ℚ, (updateServicePrice st' "3" newPrice).bookings = st'.bookings := by
  refine ⟨_, _, rfl, ?_⟩
  exact C7_booking_snapshot dowMon "2025-06-01T12:00:00.000Z" seedState
    ⟨"1", "1", "3", "2025-06-02", "13:00", none⟩ _ _
    ⟨"3", "1", 65, "USD", 90, true⟩ rfl (by decide) (by decide)

/-- C1, counterexample: from the seed data, booking service 3 (90 minutes)
with provider 1 on Monday 2025-06-02 at 13:00 and then at 12:00 produces two
`pending` bookings `[13:00, 14:30)` and `[12:00, 13:30)` for the same provider
and date — the availability check only protects the 30-minute start window,
so the reachable state `overbookedState` violates the pairwise-non-overlap
invariant. -/
theorem C1_counterexample :
    Reachable dowMon overbookedState ∧ ¬ NoOverlapInvariant overbookedState :=
  ⟨⟨[opBook1300, opBook1200], rfl⟩, by decide⟩

/-- C1, amended: creation preserves only a weaker property — the new
booking's initial 30-minute window `[startTime, startTime+30)` does not
overlap any booking already occupying that provider and date.  The full
`[startTime, endTime)` intervals can overlap as soon as a service is longer
than the 30-minute granularity (and the unvalidated update endpoint can break
the invariant outright), as the counterexample shows. -/
theorem C1_creation_window_disjoint
    (dow : String → Nat) (now : String) (st : MState) (r : BookingRequest)
    (st' : MState) (nb : Booking)
    (hok : createBooking dow now st r = .ok (st', nb))
    (hwf : ∀ prov ∈ st.providers, ∀ kv ∈ prov.workingHours, ∀ p ∈ kv.2.slots,
      (parseHM p.start).2 < 60 ∧ (parseHM p.stop).2 < 60 ∧ (parseHM p.stop).1 < 100)
    (hbk : ∀ b ∈ occupying st.bookings r.providerId r.date,
      b.startTime = minStr (timeVal b.startTime) ∧
      b.endTime = minStr (timeVal b.endTime) ∧
      timeVal b.startTime < timeVal b.endTime ∧ timeVal b.endTime < 6000) :
    ∃ t : Nat, t + 30 < 6000 ∧ nb.startTime = minStr t ∧
      ∀ b ∈ occupying st.bookings r.providerId r.date,
        ¬ (t < timeVal b.endTime ∧ timeVal b.startTime < t + 30) := by
  simp only [createBooking] at hok
  split at hok
  · exact absurd hok (by simp)
  · cases hsv : st.services.find? (fun s => s.id == r.serviceId) with
    | none => simp only [hsv] at hok; exact absurd hok (by simp)
    | some service =>
      simp only [hsv] at hok
      split at hok
      · exact absurd hok (by simp)
      · next hany =>
        simp only [Bool.not_eq_true, Bool.not_eq_false, Bool.not_eq_false'] at hany
        rw [Except.ok.injEq, Prod.mk.injEq] at hok
        obtain ⟨hst, hnb⟩ := hok
        subst hst
        subst hnb
        obtain ⟨slot, hslotmem, hsloteq⟩ := List.any_eq_true.mp hany
        simp only [generateAvailableSlots] at hslotmem
        cases hfind : st.providers.find? (fun p => p.id == r.providerId) with
        | none => simp only [hfind] at hslotmem; exact absurd hslotmem (List.not_mem_nil _)
        | some prov =>
          simp only [hfind] at hslotmem
          cases hlk : List.lookup (Nat.repr (dow r.date)) prov.workingHours with
          | none => simp only [hlk] at hslotmem; exact absurd hslotmem (List.not_mem_nil _)
          | some wh =>
            simp only [hlk] at hslotmem
            by_cases hopen : wh.isOpen = true
            · rw [if_pos hopen, List.mem_filter] at hslotmem
              obtain ⟨hbase, hpredB⟩ := hslotmem
              rw [List.mem_flatMap] at hbase
              obtain ⟨p, hp, hsp⟩ := hbase
              obtain ⟨hb1, hb2, hb3⟩ :=
                hwf prov (List.mem_of_find?_eq_some hfind) _ (lookup_mem hlk) p hp
              obtain ⟨t, hshape, _, _, ht⟩ := periodSlots_shape hb1 hb2 hb3 hsp
              have hstart : slot.start = r.startTime := eq_of_beq hsloteq
              refine ⟨t, ht, ?_, ?_⟩
              · show r.startTime = minStr t
                rw [← hstart, hshape]
              · intro b hbmem hover
                rw [Bool.not_eq_true', List.any_eq_false] at hpredB
                have hblocks := hpredB b hbmem
                obtain ⟨hbs, hbe, hlt2, hbnd⟩ := hbk b hbmem
                rw [hshape, hbs, hbe] at hblocks
                exact hblocks
                  ((bookingBlocks_iff hbnd (by omega) (by omega) hlt2 (by omega)).mpr hover)
            · rw [if_neg hopen] at hslotmem
              exact absurd hslotmem (List.not_mem_nil _)

/-- Witness for C1's amended theorem: after the 13:00 booking, a further
booking at 15:00 succeeds and its 30-minute start window avoids the occupying
booking `[13:00, 14:30)`. -/
theorem C1_creation_window_disjoint_witness :
    ∃ st' nb, createBooking dowMon "2025-06-01T13:00:00.000Z" stateAfter1300
        ⟨"1", "1", "1", "2025-06-02", "15:00", none⟩ = .ok (st', nb) ∧
      ∃ t : Nat, t + 30 < 6000 ∧ nb.startTime = minStr t ∧
        ∀ b ∈ occupying stateAfter1300.bookings "1" "2025-06-02",
          ¬ (t < timeVal b.endTime ∧ timeVal b.startTime < t + 30) := by
  refine ⟨_, _, rfl, ?_⟩
  exact C1_creation_window_disjoint dowMon "2025-06-01T13:00:00.000Z" stateAfter1300
    ⟨"1", "1", "1", "2025-06-02", "15:00", none⟩ _ _ rfl (by decide) (by decide)

/-- A state with one completed, unreviewed booking, used to exercise a
successful review creation. -/
def reviewDemoState : MState :=
  { providers := [{ id := "p1", workingHours := [], rating := 3, reviewCount := 7 }]
    services := []
    bookings := [{ id := "b1", customerId := "c1", providerId := "p1", serviceId := "s1"
                   date := "2025-05-31", startTime := "10:00", endTime := "11:00"
                   status := .completed, totalPrice := 10, currency := "USD"
                   notes := none
                   createdAt := "2025-05-30T09:00:00.000Z"
                   updatedAt := "2025-05-31T12:00:00.000Z" }]
    reviews := [] }

/-- C8: reviewing a non-completed booking fails with the
"Can only review completed bookings" 400 (BookingNotCompleted); a second
review of the same booking fails with "Review already exists for this
booking" (DuplicateReview); after a successful create, the provider's rating
is the mean of all that provider's reviews and `reviewCount` their number;
after a successful delete the same holds, except an emptied review list keeps
the previous rating while `reviewCount` becomes 0. -/
theorem C8_review_rules :
    (∀ (now : String) (st : MState) (r : ReviewRequest) (booking : Booking),
      (r.bookingId == "" || r.customerId == "" || r.providerId == "" ||
        r.serviceId == "" || r.rating == 0) = false →
      st.bookings.find? (fun b => b.id == r.bookingId) = some booking →
      booking.status ≠ .completed →
      createReview now st r = .error (.badRequest "Can only review completed bookings")) ∧
    (∀ (now : String) (st : MState) (r : ReviewRequest) (booking : Booking) (rv : Review),
      (r.bookingId == "" || r.customerId == "" || r.providerId == "" ||
        r.serviceId == "" || r.rating == 0) = false →
      st.bookings.find? (fun b => b.id == r.bookingId) = some booking →
      booking.status = .completed →
      st.reviews.find? (fun x => x.bookingId == r.bookingId) = some rv →
      createReview now st r = .error (.badRequest "Review already exists for this booking")) ∧
    (∀ (now : String) (st : MState) (r : ReviewRequest) (st' : MState) (rv : Review)
        (i : Nat) (p : Provider),
      createReview now st r = .ok (st', rv) →
      findIdxO (fun q => q.id == r.providerId) st.providers = some i →
      st.providers[i]? = some p →
      ∃ p', st'.providers[i]? = some p' ∧
        p'.rating = ratingSum (st'.reviews.filter (fun x => x.providerId == r.providerId)) /
          ((st'.reviews.filter (fun x => x.providerId == r.providerId)).length : ℚ) ∧
        p'.reviewCount = (st'.reviews.filter (fun x => x.providerId == r.providerId)).length) ∧
    (∀ (st : MState) (id : String) (st' : MState) (i : Nat) (rv : Review)
        (j : Nat) (p : Provider),
      findIdxO (fun x => x.id == id) st.reviews = some i →
      st.reviews[i]? = some rv →
      findIdxO (fun q => q.id == rv.providerId) st.providers = some j →
      st.providers[j]? = some p →
      deleteReview st id = .ok st' →
      ∃ p', st'.providers[j]? = some p' ∧
        p'.reviewCount = (st'.reviews.filter (fun x => x.providerId == rv.providerId)).length ∧
        (0 < (st'.reviews.filter (fun x => x.providerId == rv.providerId)).length →
          p'.rating =
            ratingSum (st'.reviews.filter (fun x => x.providerId == rv.providerId)) /
              ((st'.reviews.filter (fun x => x.providerId == rv.providerId)).length : ℚ)) ∧
        ((st'.reviews.filter (fun x => x.providerId == rv.providerId)).length = 0 →
          p'.rating = p.rating)) := by
  refine ⟨?_, ?_, ?_, ?_⟩
  · intro now st r booking hval hfind hstat
    simp only [createReview, hfind]
    rw [if_neg (by rw [hval]; exact Bool.false_ne_true)]
    rw [if_pos (by simp only [bne_iff_ne, ne_eq]; exact hstat)]
  · intro now st r booking rv hval hfind hstat hdup
    simp only [createReview, hfind, hdup]
    rw [if_neg (by rw [hval]; exact Bool.false_ne_true)]
    rw [if_neg (by simp [hstat])]
  · intro now st r st' rv i p hok hidx hp
    simp only [createReview] at hok
    split at hok
    · exact absurd hok (by simp)
    · cases hfb : st.bookings.find? (fun b => b.id == r.bookingId) with
      | none => simp only [hfb] at hok; exact absurd hok (by simp)
      | some booking =>
        simp only [hfb] at hok
        split at hok
        · exact absurd hok (by simp)
        · cases hdup : st.reviews.find? (fun x => x.bookingId == r.bookingId) with
          | some old => simp only [hdup] at hok; exact absurd hok (by simp)
          | none =>
            simp only [hdup, hidx, hp] at hok
            rw [Except.ok.injEq, Prod.mk.injEq] at hok
            obtain ⟨hst, hrv⟩ := hok
            subst hst
            subst hrv
            exact ⟨_, List.getElem?_set_self (List.getElem?_eq_some.mp hp).1, rfl, rfl⟩
  · intro st id st' i rv j p hidx hrv hj hp hok
    simp only [deleteReview, hidx, hrv, hj, hp] at hok
    rw [Except.ok.injEq] at hok
    subst hok
    refine ⟨_, List.getElem?_set_self (List.getElem?_eq_some.mp hp).1, rfl, ?_, ?_⟩
    · intro hpos
      show (if 0 < ((st.reviews.eraseIdx i).filter
          (fun x => x.providerId == rv.providerId)).length then _ else _) = _
      rw [if_pos hpos]
    · intro hzero
      have hz : ((st.reviews.eraseIdx i).filter
          (fun x => x.providerId == rv.providerId)).length = 0 := hzero
      show (if 0 < ((st.reviews.eraseIdx i).filter
          (fun x => x.providerId == rv.providerId)).length then _ else _) = _
      rw [if_neg (by omega)]

/-- Witness for C8: (a) reviewing the pending seed booking `"5"` fails;
(b) a second review of completed booking `"1"` fails; (c) a successful create
on `reviewDemoState` recomputes provider `"p1"`'s aggregate; (d) deleting seed
review `"2"` leaves provider `"3"` with zero reviews and its old rating. -/
theorem C8_review_rules_witness :
    createReview "2025-06-02T09:00:00.000Z" seedState ⟨"5", "1", "1", "2", 4, none⟩ =
      .error (.badRequest "Can only review completed bookings") ∧
    createReview "2025-06-02T09:00:00.000Z" seedState ⟨"1", "1", "1", "1", 4, none⟩ =
      .error (.badRequest "Review already exists for this booking") ∧
    (∃ st' rv, createReview "2025-06-02T09:00:00.000Z" reviewDemoState
        ⟨"b1", "c1", "p1", "s1", 5, none⟩ = .ok (st', rv) ∧
      ∃ p', st'.providers[0]? = some p' ∧
        p'.rating = ratingSum (st'.reviews.filter (fun x => x.providerId == "p1")) /
          ((st'.reviews.filter (fun x => x.providerId == "p1")).length : ℚ) ∧
        p'.reviewCount = (st'.reviews.filter (fun x => x.providerId == "p1")).length) ∧
    (∃ st', deleteReview seedState "2" = .ok st' ∧
      ∃ p', st'.providers[2]? = some p' ∧
        p'.reviewCount = (st'.reviews.filter (fun x => x.providerId == "3")).length ∧
        (0 < (st'.reviews.filter (fun x => x.providerId == "3")).length →
          p'.rating = ratingSum (st'.reviews.filter (fun x => x.providerId == "3")) /
            ((st'.reviews.filter (fun x => x.providerId == "3")).length : ℚ)) ∧
        ((st'.reviews.filter (fun x => x.providerId == "3")).length = 0 →
          p'.rating = (4.7 : ℚ))) := by
  refine ⟨?_, ?_, ?_, ?_⟩
  · exact C8_review_rules.1 "2025-06-02T09:00:00.000Z" seedState ⟨"5", "1", "1", "2", 4, none⟩
      { id := "5", customerId := "1", providerId := "1", serviceId := "2"
        date := "2025-06-04", startTime := "15:00", endTime := "16:15"
        status := .pending, totalPrice := 90, currency := "USD"
        notes := some "Special occasion makeup"
        createdAt := "2025-06-01T09:00:00.000Z", updatedAt := "2025-06-01T09:00:00.000Z" }
      (by decide) (by decide) (by decide)
  · exact C8_review_rules.2.1 "2025-06-02T09:00:00.000Z" seedState ⟨"1", "1", "1", "1", 4, none⟩
      { id := "1", customerId := "1", providerId := "1", serviceId := "1"
        date := "2025-05-31", startTime := "10:00", endTime := "11:00"
        status := .completed, totalPrice := 75, currency := "USD"
        notes := some "First time customer"
        createdAt := "2025-05-29T09:00:00.000Z", updatedAt := "2025-05-31T09:00:00.000Z" }
      { id := "1", bookingId := "1", customerId := "1", providerId := "1", serviceId := "1"
        rating := 5
        comment := "Amazing haircut! Exactly what I wanted and the stylist was very professional."
        createdAt := "2025-05-31T09:00:00.000Z", updatedAt := "2025-05-31T09:00:00.000Z" }
      (by decide) (by decide) (by decide) (by decide)
  · refine ⟨_, _, rfl, ?_⟩
    exact C8_review_rules.2.2.1 "2025-06-02T09:00:00.000Z" reviewDemoState
      ⟨"b1", "c1", "p1", "s1", 5, none⟩ _ _ 0
      { id := "p1", workingHours := [], rating := 3, reviewCount := 7 }
      rfl (by decide) (by decide)
  · refine ⟨_, rfl, ?_⟩
    exact C8_review_rules.2.2.2 seedState "2" _ 1
      { id := "2", bookingId := "4", customerId := "3", providerId := "3", serviceId := "12"
        rating := 4
        comment := "خدمة جيدة جدًا، ولكن كان هناك انتظار طويل قليلاً."
        createdAt := "2025-05-31T09:00:00.000Z", updatedAt := "2025-05-31T09:00:00.000Z" }
      2 { id := "3", workingHours := week1019, rating := 4.7, reviewCount := 56 }
      (by decide) (by decide) (by decide) rfl rfl

end CareBooking
